import Mathlib

/-!
Verification of the biofilm risk detection dashboard core: the telemetry
to decision pipeline (risk resolution, DSS rule engine, dosage calculator,
trend analysis, connectivity, alert throttling) as implemented in the
repository sources, shallowly embedded over exact rational arithmetic.
-/

namespace Biofilm

/-- Heuristic risk model, embedded from predictBiofilmRisk in the dashboard
source: base 10, sequential additive factors for temperature, pH, turbidity,
flow and TDS, capped at 100 with Math.min. -/
def predictBiofilmRisk (temp ph turbidity flow tds : ℚ) : ℚ :=
  let score : ℚ := 10
  let score := if 20 < temp ∧ temp < 35 then score + 20
    else if 35 < temp then score + 10 else score
  let score := if 6.5 < ph ∧ ph < 8.0 then score + 20 else score
  let score := if 5 < turbidity then score + 25 else score
  let score := if flow < 10 then score + 25 else score
  let score := if 500 < tds then score + 10 else score
  min score 100

/-- Written from the words of claim C3: independent additive factors with a
plus 10 bonus when temperature is at least 35, finally clamped into the
interval from 0 to 100. Stated for comparison with predictBiofilmRisk. -/
def claimedHeuristicC3 (temp ph turbidity flow tds : ℚ) : ℚ :=
  min (max (10
    + (if 20 < temp ∧ temp < 35 then 20 else 0)
    + (if 35 ≤ temp then 10 else 0)
    + (if 6.5 < ph ∧ ph < 8.0 then 20 else 0)
    + (if 5 < turbidity then 25 else 0)
    + (if flow < 10 then 25 else 0)
    + (if 500 < tds then 10 else 0)) 0) 100

/-- Amended independent additive form: as claim C3 but with the temperature
bonus condition strictly greater than 35, matching the else-if chain of the
source. -/
def claimedHeuristicAmended (temp ph turbidity flow tds : ℚ) : ℚ :=
  min (max (10
    + (if 20 < temp ∧ temp < 35 then 20 else 0)
    + (if 35 < temp then 10 else 0)
    + (if 6.5 < ph ∧ ph < 8.0 then 20 else 0)
    + (if 5 < turbidity then 25 else 0)
    + (if flow < 10 then 25 else 0)
    + (if 500 < tds then 10 else 0)) 0) 100

/-- Rule based decision text, embedded from dssLogic in the dashboard
source. The turbidity argument is optional because the source passes a
possibly unavailable value through Number, whose NaN compares false. -/
def dssLogic (risk ph : ℚ) (turbidity : Option ℚ) : String :=
  if 80 < risk then "Critical: Immediate chemical shock required."
  else if 60 < risk then "Warning: Increase flow rate and monitor."
  else if ph < 6.5 ∨ 8.5 < ph then "Action: Adjust pH levels."
  else if (turbidity.map fun t => decide (10 < t)).getD false then
    "Action: Check filtration system."
  else "Normal Operation"

structure Chemical where
  name : String
  unit : String
  rate : ℚ
deriving DecidableEq, Repr

/-- Chemical table CHEMICALS from the dashboard source. -/
def chlorineChem : Chemical := ⟨"Sodium Hypochlorite (12.5%)", "ml", 50⟩

def phPlusChem : Chemical := ⟨"pH Plus (Sodium Carbonate)", "g", 50⟩

def phMinusChem : Chemical := ⟨"pH Minus (Sodium Bisulfate)", "g", 50⟩

structure Treatment where
  name : String
  unit : String
  amount : ℤ
  reason : String
deriving DecidableEq, Repr

/-- Dosage calculator, embedded from calculateTreatments in the dashboard
source: chlorine on high risk or any non normal DSS decision, and, when pH
is available, a pH corrector out of range; every amount is the ceiling of
the volume proportional dose. -/
def calculateTreatments (vol risk : ℚ) (dss : String) (ph : Option ℚ) :
    List Treatment :=
  let base : List Treatment :=
    if 60 ≤ risk ∨ dss ≠ "Normal Operation" then
      [⟨chlorineChem.name, chlorineChem.unit,
        Int.ceil (vol / 1000 * chlorineChem.rate),
        "Biofilm risk / Preventive maintenance"⟩]
    else []
  match ph with
  | none => base
  | some p =>
    if p < 6.5 then
      base ++ [⟨phPlusChem.name, phPlusChem.unit,
        Int.ceil (vol / 1000 * phPlusChem.rate), "Low pH (< 6.5)"⟩]
    else if 8.5 < p then
      base ++ [⟨phMinusChem.name, phMinusChem.unit,
        Int.ceil (vol / 1000 * phMinusChem.rate), "High pH (> 8.5)"⟩]
    else base

structure BiofilmStage where
  stage : String
  color : String
  desc : String
deriving DecidableEq, Repr

/-- Stage classifier, embedded from getBiofilmStage in the dashboard
source. -/
def getBiofilmStage (risk : ℚ) : BiofilmStage :=
  if risk < 30 then
    ⟨"Initial Attachment", "green", "Planktonic cells attaching."⟩
  else if risk < 60 then
    ⟨"Irreversible Attachment", "orange", "EPS production starting."⟩
  else if risk < 85 then
    ⟨"Maturation I", "orange", "Microcolonies forming."⟩
  else
    ⟨"Maturation II / Dispersion", "red", "Critical mass reached."⟩

structure DSSResult where
  decision : String
  action : String
  urgency : String
  review : String
  factors : List String
deriving DecidableEq, Repr

/-- DSS rule engine, embedded from runDSS in the dashboard source: the
factor count and the contributing factor names are accumulated by four
sequential checks, then the three decision rules are tried in order. -/
def runDSS (risk turb flow tds temp : ℚ) : DSSResult :=
  let acc0 : ℕ × List String := (0, [])
  let acc1 := if 5 < turb then (acc0.1 + 1, acc0.2 ++ ["Turbidity high"]) else acc0
  let acc2 := if flow < 60 then (acc1.1 + 1, acc1.2 ++ ["Flow low"]) else acc1
  let acc3 := if 500 < tds then (acc2.1 + 1, acc2.2 ++ ["TDS high"]) else acc2
  let acc4 := if 30 < temp then (acc3.1 + 1, acc3.2 ++ ["Temperature high"]) else acc3
  if risk < 30 ∧ acc4.1 ≤ 1 then
    ⟨"Normal Operation", "No maintenance required", "Low", "After 24 hours",
      acc4.2⟩
  else if risk < 60 ∨ acc4.1 = 2 then
    ⟨"Preventive Maintenance", "Schedule inspection & partial cleaning",
      "Medium", "Within 12 hours", acc4.2⟩
  else
    ⟨"Corrective Action Required", "Immediate cleaning & backwash", "High",
      "Within 1 hour", acc4.2⟩

/-- Factor count written independently from the claim words: the number of
true conditions among turbidity above 5, flow below 60, TDS above 500 and
temperature above 30. -/
def dssFactorCount (turb flow tds temp : ℚ) : ℕ :=
  (if 5 < turb then 1 else 0) + (if flow < 60 then 1 else 0)
    + (if 500 < tds then 1 else 0) + (if 30 < temp then 1 else 0)

/-- Contributing factor list written independently from the claim words:
each true condition appends its name in the fixed order. -/
def dssFactorNames (turb flow tds temp : ℚ) : List String :=
  (if 5 < turb then ["Turbidity high"] else [])
    ++ (if flow < 60 then ["Flow low"] else [])
    ++ (if 500 < tds then ["TDS high"] else [])
    ++ (if 30 < temp then ["Temperature high"] else [])

/-- Risk resolver, embedded from the riskScore derivation in the dashboard
source: a present external risk (field7) is used as is; otherwise the
heuristic runs only when every sensor value is available, else the score is
0. -/
def riskScore (externalRisk ph temp turb flow tds : Option ℚ) : ℚ :=
  match externalRisk with
  | some r => r
  | none =>
    match ph, temp, turb, flow, tds with
    | some p, some t, some tu, some f, some td => predictBiofilmRisk t p tu f td
    | _, _, _, _, _ => 0

/-- DSS decision wiring, embedded from the dssDecision derivation in the
dashboard source: a placeholder while pH is unavailable. -/
def dssDecisionOf (ph : Option ℚ) (risk : ℚ) (turb : Option ℚ) : String :=
  match ph with
  | some p => dssLogic risk p turb
  | none => "Waiting for data..."

/-- Treatment wiring, embedded from the treatments derivation in the
dashboard source: an empty list while pH is unavailable. -/
def treatmentsOf (ph : Option ℚ) (vol risk : ℚ) (turb : Option ℚ) :
    List Treatment :=
  match ph with
  | some p => calculateTreatments vol risk (dssDecisionOf ph risk turb) (some p)
  | none => []

inductive ConnStatus
  | connected
  | disconnected
deriving DecidableEq, Repr

/-- Connectivity monitor, embedded from the status check in fetchData of the
dashboard source: disconnected on an explicit status code of 0 or on a
reading older than 60000 milliseconds, connected otherwise. Times are epoch
milliseconds. -/
def connectionStatusOf (statusCode : Option ℤ) (now lastTime : ℤ) : ConnStatus :=
  if statusCode = some 0 ∨ 60000 < now - lastTime then .disconnected
  else .connected

/-- Alert cooldown in milliseconds, embedded from the throttle constant in
the alert effect of the dashboard source. -/
def alertCooldownMs : ℤ := 3600000

/-- One throttle check, embedded from the alert effect of the dashboard
source: fire when risk is above 80 and either no last alert timestamp is
stored or more than the cooldown has elapsed since it. -/
def alertFires (s : Option ℤ) (now : ℤ) (risk : ℚ) : Bool :=
  decide (80 < risk) &&
    (match s with
     | none => true
     | some t => decide (alertCooldownMs < now - t))

/-- State update of the throttle: on fire the stored timestamp becomes the
current time, otherwise it is unchanged. -/
def alertStep (s : Option ℤ) (now : ℤ) (risk : ℚ) : Option ℤ :=
  if alertFires s now risk then some now else s

/-- Fire times produced by running the throttle over a sequence of resolved
risk updates, each update a pair of time and risk. -/
def alertRun (s : Option ℤ) : List (ℤ × ℚ) → List ℤ
  | [] => []
  | (now, r) :: es =>
    if alertFires s now r then now :: alertRun (some now) es
    else alertRun (alertStep s now r) es

structure Feed where
  field1 : ℚ
  field2 : ℚ
  field4 : ℚ
  field5 : ℚ
  field6 : ℚ
  field7 : Option ℚ
deriving DecidableEq, Repr

structure Offsets where
  ph : ℚ
  temp : ℚ
  tds : ℚ
deriving DecidableEq, Repr

/-- Score used by the trend analysis, embedded from the getTrend body of the
dashboard source: the heuristic applied to the offset adjusted reading. The
optional external risk field7 of the feed is not consulted. -/
def trendScore (o : Offsets) (f : Feed) : ℚ :=
  predictBiofilmRisk (f.field2 + o.temp) (f.field1 + o.ph) f.field5 f.field4
    (f.field6 + o.tds)

structure TrendResult where
  dir : String
  diff : ℚ
deriving DecidableEq, Repr

/-- Classification of a score difference, embedded from the tail of getTrend
in the dashboard source. -/
def classifyTrendDiff (d : ℚ) : TrendResult :=
  if |d| < 2 then ⟨"stable", 0⟩
  else if 0 < d then ⟨"up", d⟩
  else ⟨"down", -d⟩

/-- Trend analysis, embedded from getTrend in the dashboard source: null
below two readings, otherwise the classified difference of the trend scores
of the last and the second to last feed. -/
def getTrend (o : Offsets) (feeds : List Feed) : Option TrendResult :=
  match feeds.reverse with
  | currF :: prevF :: _ =>
    some (classifyTrendDiff (trendScore o currF - trendScore o prevF))
  | _ => none

/-- Written from the words of claim C6 for comparison: the resolved risk of
a feed prefers a clamped external risk over the heuristic. -/
def resolvedFeedRiskSpec (o : Offsets) (f : Feed) : ℚ :=
  match f.field7 with
  | some r => min (max r 0) 100
  | none => trendScore o f

/-- Written from the words of claim C6 for comparison: the trend computed
from the resolved risks of the last two feeds. -/
def claimedTrendC6 (o : Offsets) (feeds : List Feed) : Option TrendResult :=
  match feeds.reverse with
  | currF :: prevF :: _ =>
    some (classifyTrendDiff
      (resolvedFeedRiskSpec o currF - resolvedFeedRiskSpec o prevF))
  | _ => none

/-- Modelled from the spec: the History Window component, an append only
ring buffer of capacity 10 with FIFO eviction of the oldest entry when full.
The buffer itself is not implemented in the repository sources; the client
only mirrors the last 10 records served by the telemetry store through the
results parameter of API_URL and setFeeds, so the append operation is
modelled from the spec words. -/
def historyAppend (w : List Feed) (r : Feed) : List Feed :=
  if w.length < 10 then w ++ [r] else w.drop 1 ++ [r]

/-- Window obtained by appending a sequence of readings into an empty
History Window. -/
def historyOfAppends (rs : List Feed) : List Feed :=
  rs.foldl historyAppend []

lemma riskScore_none_cases (ph temp turb flow tds : Option ℚ) :
    riskScore none ph temp turb flow tds = 0 ∨
    ∃ p t tu f td, ph = some p ∧ temp = some t ∧ turb = some tu ∧
      flow = some f ∧ tds = some td ∧
      riskScore none ph temp turb flow tds = predictBiofilmRisk t p tu f td := by
  rcases ph with _ | p <;> rcases temp with _ | t <;> rcases turb with _ | tu <;>
    rcases flow with _ | f <;> rcases tds with _ | td <;>
    first
      | exact Or.inl rfl
      | exact Or.inr ⟨_, _, _, _, _, rfl, rfl, rfl, rfl, rfl, rfl⟩

lemma predictBiofilmRisk_bounds (temp ph turbidity flow tds : ℚ) :
    0 ≤ predictBiofilmRisk temp ph turbidity flow tds ∧
    predictBiofilmRisk temp ph turbidity flow tds ≤ 100 := by
  unfold predictBiofilmRisk
  split_ifs <;> constructor <;> norm_num

/-- Claim C3 counterexample: at temperature exactly 35 (pH 5, turbidity 0,
flow 20, TDS 0) the source heuristic adds no temperature bonus and yields
10, while the formula of the claim, with its bonus at temperature at least
35, yields 20. -/
theorem c3_counterexample :
    predictBiofilmRisk 35 5 0 20 0 = 10 ∧
    claimedHeuristicC3 35 5 0 20 0 = 20 ∧
    predictBiofilmRisk 35 5 0 20 0 ≠ claimedHeuristicC3 35 5 0 20 0 := by
  refine ⟨?_, ?_, ?_⟩ <;> norm_num [predictBiofilmRisk, claimedHeuristicC3]

/-- Claim C3 (amended): the heuristic risk score equals base 10, plus 20 if
temperature is strictly between 20 and 35, plus 10 if temperature is
strictly above 35, plus 20 if pH is strictly between 6.5 and 8.0, plus 25 if
turbidity is above 5, plus 25 if flow is below 10, plus 10 if TDS is above
500, finally clamped into the interval from 0 to 100; and the reading with
temperature 25, pH 7, turbidity 8, flow 5, TDS 600 yields 110 clamped to
100. -/
theorem c3_amended :
    (∀ temp ph turbidity flow tds : ℚ,
      predictBiofilmRisk temp ph turbidity flow tds
        = claimedHeuristicAmended temp ph turbidity flow tds) ∧
    predictBiofilmRisk 25 7 8 5 600 = 100 := by
  constructor
  · intro temp ph turbidity flow tds
    unfold predictBiofilmRisk claimedHeuristicAmended
    split_ifs <;> try norm_num
    all_goals
      exact absurd ‹35 < temp›
        (not_lt.mpr (le_of_lt ‹20 < temp ∧ temp < 35›.2))
  · norm_num [predictBiofilmRisk]

/-- Claim C1 counterexample: a reading whose external risk field carries the
value 150 resolves to the score 150 verbatim, outside the interval from 0 to
100 and different from the clamped value 100 the claim requires. -/
theorem c1_counterexample :
    riskScore (some 150) (some 7) (some 25) (some 2) (some 70) (some 100) = 150 ∧
    ¬ riskScore (some 150) (some 7) (some 25) (some 2) (some 70) (some 100) ≤ 100 ∧
    riskScore (some 150) (some 7) (some 25) (some 2) (some 70) (some 100)
      ≠ min (max 150 0) 100 := by
  refine ⟨rfl, ?_, ?_⟩ <;> norm_num [riskScore]

/-- Claim C1 (amended): when the reading carries a numeric external risk the
resolved score equals that value verbatim, without clamping, so it lies in
the interval from 0 to 100 only when the external value does; when the score
is computed without an external risk (heuristically, or defaulted to 0 on a
missing sensor) it always lies in the interval from 0 to 100, the heuristic
being capped at 100. -/
theorem c1_amended (externalRisk ph temp turb flow tds : Option ℚ) :
    (∀ r, externalRisk = some r →
      riskScore externalRisk ph temp turb flow tds = r) ∧
    (externalRisk = none →
      0 ≤ riskScore externalRisk ph temp turb flow tds ∧
      riskScore externalRisk ph temp turb flow tds ≤ 100) := by
  constructor
  · intro r h
    subst h
    rfl
  · intro h
    subst h
    rcases riskScore_none_cases ph temp turb flow tds with h0 |
      ⟨p, t, tu, f, td, _, _, _, _, _, heq⟩
    · rw [h0]
      norm_num
    · rw [heq]
      exact predictBiofilmRisk_bounds t p tu f td

/-- Witness for claim C1 (amended) at concrete readings. -/
theorem c1_amended_witness :
    riskScore (some 75) (some 7) (some 25) (some 8) (some 40) (some 600) = 75 ∧
    (0 ≤ riskScore none (some 7) (some 25) (some 8) (some 5) (some 600) ∧
     riskScore none (some 7) (some 25) (some 8) (some 5) (some 600) ≤ 100) :=
  ⟨(c1_amended (some 75) (some 7) (some 25) (some 8) (some 40) (some 600)).1 75 rfl,
   (c1_amended none (some 7) (some 25) (some 8) (some 5) (some 600)).2 rfl⟩

lemma runDSS_eq (risk turb flow tds temp : ℚ) :
    runDSS risk turb flow tds temp =
      (if risk < 30 ∧ dssFactorCount turb flow tds temp ≤ 1 then
        ⟨"Normal Operation", "No maintenance required", "Low", "After 24 hours",
          dssFactorNames turb flow tds temp⟩
      else if risk < 60 ∨ dssFactorCount turb flow tds temp = 2 then
        ⟨"Preventive Maintenance", "Schedule inspection & partial cleaning",
          "Medium", "Within 12 hours", dssFactorNames turb flow tds temp⟩
      else
        ⟨"Corrective Action Required", "Immediate cleaning & backwash", "High",
          "Within 1 hour", dssFactorNames turb flow tds temp⟩) := by
  unfold runDSS dssFactorCount dssFactorNames
  by_cases h1 : 5 < turb <;> by_cases h2 : flow < 60 <;>
    by_cases h3 : 500 < tds <;> by_cases h4 : 30 < temp <;>
    simp [h1, h2, h3, h4]

/-- Claim C2: the DSS evaluates its rules in order with first match winning:
risk below 30 with factor count at most 1 yields Normal Operation, otherwise
risk below 60 or factor count exactly 2 yields Preventive Maintenance,
otherwise Corrective Action Required, each with its action, urgency and
review window; the factor count is the number of true conditions among
turbidity above 5, flow below 60, TDS above 500 and temperature above 30,
each true condition appended by name to the contributing factors. -/
theorem c2_dss (risk turb flow tds temp : ℚ) :
    (runDSS risk turb flow tds temp).factors = dssFactorNames turb flow tds temp ∧
    (risk < 30 ∧ dssFactorCount turb flow tds temp ≤ 1 →
      runDSS risk turb flow tds temp =
        ⟨"Normal Operation", "No maintenance required", "Low", "After 24 hours",
          dssFactorNames turb flow tds temp⟩) ∧
    (¬(risk < 30 ∧ dssFactorCount turb flow tds temp ≤ 1) →
      (risk < 60 ∨ dssFactorCount turb flow tds temp = 2) →
      runDSS risk turb flow tds temp =
        ⟨"Preventive Maintenance", "Schedule inspection & partial cleaning",
          "Medium", "Within 12 hours", dssFactorNames turb flow tds temp⟩) ∧
    (¬(risk < 30 ∧ dssFactorCount turb flow tds temp ≤ 1) →
      ¬(risk < 60 ∨ dssFactorCount turb flow tds temp = 2) →
      runDSS risk turb flow tds temp =
        ⟨"Corrective Action Required", "Immediate cleaning & backwash", "High",
          "Within 1 hour", dssFactorNames turb flow tds temp⟩) := by
  rw [runDSS_eq]
  by_cases hA : risk < 30 ∧ dssFactorCount turb flow tds temp ≤ 1
  · simp [hA]
  · by_cases hB : risk < 60 ∨ dssFactorCount turb flow tds temp = 2
    · simp [hA, hB]
    · simp [hA, hB]

/-- Witness for claim C2 at a concrete reading: risk 75 with all four
factors out of range escalates to Corrective Action Required. -/
theorem c2_dss_witness :
    runDSS 75 8.5 40 600 32.5 =
      ⟨"Corrective Action Required", "Immediate cleaning & backwash", "High",
        "Within 1 hour", dssFactorNames 8.5 40 600 32.5⟩ :=
  (c2_dss 75 8.5 40 600 32.5).2.2.2
    (by norm_num [dssFactorCount]) (by norm_num [dssFactorCount])

lemma calculateTreatments_some_eq (vol risk : ℚ) (dss : String) (p : ℚ) :
    calculateTreatments vol risk dss (some p) =
      (if 60 ≤ risk ∨ dss ≠ "Normal Operation" then
        [⟨"Sodium Hypochlorite (12.5%)", "ml", Int.ceil (vol / 1000 * 50),
          "Biofilm risk / Preventive maintenance"⟩]
      else []) ++
      (if p < 6.5 then
        [⟨"pH Plus (Sodium Carbonate)", "g", Int.ceil (vol / 1000 * 50),
          "Low pH (< 6.5)"⟩]
      else if 8.5 < p then
        [⟨"pH Minus (Sodium Bisulfate)", "g", Int.ceil (vol / 1000 * 50),
          "High pH (> 8.5)"⟩]
      else []) := by
  unfold calculateTreatments chlorineChem phPlusChem phMinusChem
  by_cases hc : 60 ≤ risk ∨ dss ≠ "Normal Operation" <;>
    by_cases hp1 : p < 6.5 <;> by_cases hp2 : 8.5 < p <;>
    simp [hc, hp1, hp2]

/-- Claim C4: with a nonnegative tank volume, a chlorine treatment of the
ceiling of volume over 1000 times 50 ml is produced exactly when risk is at
least 60 or the decision is not Normal Operation; a pH Plus treatment
exactly when pH is below 6.5; a pH Minus treatment exactly when pH is above
8.5; every treatment amount is an integer at least 0 and at least the raw
proportional dose; and the treatment list is empty exactly when risk is
below 60, the decision is Normal Operation and pH lies between 6.5 and
8.5. -/
theorem c4_treatments (vol risk : ℚ) (dss : String) (p : ℚ) (hv : 0 ≤ vol) :
    ((∃ t ∈ calculateTreatments vol risk dss (some p),
        t.name = "Sodium Hypochlorite (12.5%)" ∧ t.unit = "ml" ∧
        t.amount = Int.ceil (vol / 1000 * 50)) ↔
      (60 ≤ risk ∨ dss ≠ "Normal Operation")) ∧
    ((∃ t ∈ calculateTreatments vol risk dss (some p),
        t.name = "pH Plus (Sodium Carbonate)" ∧ t.unit = "g" ∧
        t.amount = Int.ceil (vol / 1000 * 50)) ↔ p < 6.5) ∧
    ((∃ t ∈ calculateTreatments vol risk dss (some p),
        t.name = "pH Minus (Sodium Bisulfate)" ∧ t.unit = "g" ∧
        t.amount = Int.ceil (vol / 1000 * 50)) ↔ 8.5 < p) ∧
    (∀ t ∈ calculateTreatments vol risk dss (some p),
      0 ≤ t.amount ∧ t.amount = Int.ceil (vol / 1000 * 50) ∧
      vol / 1000 * 50 ≤ (t.amount : ℚ)) ∧
    (calculateTreatments vol risk dss (some p) = [] ↔
      (risk < 60 ∧ dss = "Normal Operation" ∧ 6.5 ≤ p ∧ p ≤ 8.5)) := by
  have hdose : (0 : ℚ) ≤ vol / 1000 * 50 :=
    mul_nonneg (div_nonneg hv (by norm_num)) (by norm_num)
  rw [calculateTreatments_some_eq]
  split_ifs with hc hp1 hp2 <;>
    simp [Int.ceil_nonneg hdose, Int.le_ceil] <;>
    (try push_neg at hc) <;>
    and_intros <;>
    first
      | tauto
      | linarith
      | (intros; linarith)
      | (intros
         rcases hc with hre | hre
         · linarith
         · tauto)

/-- Witness for claim C4 at a concrete evaluation: volume 1000, risk 75,
decision Normal Operation, pH 7 yields exactly the chlorine treatment. -/
theorem c4_treatments_witness :
    ∃ t ∈ calculateTreatments 1000 75 "Normal Operation" (some 7),
      t.name = "Sodium Hypochlorite (12.5%)" ∧ t.unit = "ml" ∧
      t.amount = Int.ceil ((1000 : ℚ) / 1000 * 50) :=
  (c4_treatments 1000 75 "Normal Operation" 7 (by norm_num)).1.mpr
    (Or.inl (by norm_num))

lemma alertRun_chain_aux (es : List (ℤ × ℚ)) : ∀ (s : Option ℤ),
    List.Chain' (fun a b => alertCooldownMs < b - a) (alertRun s es) ∧
    (∀ t, s = some t → ∀ h, (alertRun s es).head? = some h →
      alertCooldownMs < h - t) := by
  induction es with
  | nil =>
    intro s
    refine ⟨List.chain'_nil, ?_⟩
    intro t ht h hh
    simp [alertRun] at hh
  | cons e es ih =>
    intro s
    obtain ⟨now, r⟩ := e
    by_cases hf : alertFires s now r = true
    · have hrun : alertRun s ((now, r) :: es) = now :: alertRun (some now) es := by
        simp [alertRun, hf]
      constructor
      · rw [hrun]
        refine List.chain'_cons'.mpr ⟨?_, (ih (some now)).1⟩
        intro h hh
        exact (ih (some now)).2 now rfl h hh
      · intro t ht h hh
        rw [hrun] at hh
        simp only [List.head?_cons, Option.some.injEq] at hh
        subst ht
        subst hh
        simp [alertFires] at hf
        exact hf.2
    · have hstep : alertStep s now r = s := by
        simp [alertStep, hf]
      have hrun : alertRun s ((now, r) :: es) = alertRun s es := by
        simp [alertRun, hf, hstep]
      rw [hrun]
      exact ih s

/-- Claim C5: the alert throttle fires on an update exactly when risk is
above 80 and either no last alert timestamp exists or more than 3600000
milliseconds have elapsed since it; on firing the stored timestamp becomes
the current time; it never fires at risk at most 80; and along any update
sequence consecutive fire times are always more than one cooldown apart, so
it never fires twice within a cooldown; in particular risk 85 at times 0,
600000 and 3700000 fires, is suppressed, and fires again. -/
theorem c5_alert_throttle :
    (∀ (s : Option ℤ) (now : ℤ) (r : ℚ),
      alertFires s now r = true ↔
        (80 < r ∧ (s = none ∨ ∃ t, s = some t ∧ alertCooldownMs < now - t))) ∧
    (∀ (s : Option ℤ) (now : ℤ) (r : ℚ),
      alertFires s now r = true → alertStep s now r = some now) ∧
    (∀ (s : Option ℤ) (now : ℤ) (r : ℚ), r ≤ 80 → alertFires s now r = false) ∧
    (∀ (s : Option ℤ) (es : List (ℤ × ℚ)),
      List.Chain' (fun a b => alertCooldownMs < b - a) (alertRun s es)) ∧
    alertRun none [(0, 85), (600000, 85), (3700000, 85)] = [0, 3700000] := by
  refine ⟨?_, ?_, ?_, ?_, ?_⟩
  · intro s now r
    cases s <;> simp [alertFires]
  · intro s now r h
    simp [alertStep, h]
  · intro s now r hr
    cases s <;> simp [alertFires] <;>
      first
        | linarith
        | (intro h; linarith)
  · exact fun s es => (alertRun_chain_aux es s).1
  · norm_num [alertRun, alertFires, alertStep, alertCooldownMs]

/-- Witness for claim C5: at risk 50 the throttle does not fire. -/
theorem c5_alert_throttle_witness : alertFires none 0 50 = false :=
  c5_alert_throttle.2.2.1 none 0 50 (by norm_num)

/-- Claim C6 counterexample: for two feeds that both carry external risk 90
(heuristic values 10 and 50), the resolved risks of the claim are equal and
would give a stable trend, but the source trend ignores the external risk,
recomputes heuristically and reports up by 40. -/
theorem c6_counterexample :
    getTrend ⟨0, 0, 0⟩
        [⟨5, 0, 20, 0, 0, some 90⟩, ⟨7, 25, 20, 0, 0, some 90⟩]
      = some ⟨"up", 40⟩ ∧
    claimedTrendC6 ⟨0, 0, 0⟩
        [⟨5, 0, 20, 0, 0, some 90⟩, ⟨7, 25, 20, 0, 0, some 90⟩]
      = some ⟨"stable", 0⟩ ∧
    getTrend ⟨0, 0, 0⟩
        [⟨5, 0, 20, 0, 0, some 90⟩, ⟨7, 25, 20, 0, 0, some 90⟩]
      ≠ claimedTrendC6 ⟨0, 0, 0⟩
        [⟨5, 0, 20, 0, 0, some 90⟩, ⟨7, 25, 20, 0, 0, some 90⟩] := by
  refine ⟨?_, ?_, ?_⟩ <;>
    norm_num [getTrend, claimedTrendC6, trendScore, resolvedFeedRiskSpec,
      predictBiofilmRisk, classifyTrendDiff]

/-- Claim C6 (amended): the trend recomputes the scores of the last and the
second to last reading with one and the same scoring function, namely the
heuristic applied to the offset adjusted reading, ignoring any external risk
the readings carry (not the external preferring resolution rule); with diff
the current minus the previous score, an absolute difference below 2 is
stable with a reported diff of 0, otherwise the direction is up when diff is
positive and down when negative with magnitude the absolute difference;
fewer than two readings give no trend. -/
theorem c6_amended (o : Offsets) (feeds : List Feed) :
    (feeds.length < 2 → getTrend o feeds = none) ∧
    (∀ (f : Feed) (r : ℚ),
      trendScore o ⟨f.field1, f.field2, f.field4, f.field5, f.field6, some r⟩
        = trendScore o f) ∧
    (∀ currF prevF rest, feeds.reverse = currF :: prevF :: rest →
      ((|trendScore o currF - trendScore o prevF| < 2 →
        getTrend o feeds = some ⟨"stable", 0⟩) ∧
       (2 ≤ trendScore o currF - trendScore o prevF →
        getTrend o feeds = some ⟨"up", trendScore o currF - trendScore o prevF⟩) ∧
       (trendScore o currF - trendScore o prevF ≤ -2 →
        getTrend o feeds =
          some ⟨"down", -(trendScore o currF - trendScore o prevF)⟩))) := by
  refine ⟨?_, fun f r => rfl, ?_⟩
  · intro h
    rcases feeds with _ | ⟨a, _ | ⟨b, t⟩⟩
    · rfl
    · rfl
    · simp at h
      omega
  · intro currF prevF rest hrev
    have hget : getTrend o feeds =
        some (classifyTrendDiff (trendScore o currF - trendScore o prevF)) := by
      unfold getTrend
      rw [hrev]
    refine ⟨?_, ?_, ?_⟩
    · intro hd
      rw [hget]
      simp [classifyTrendDiff, hd]
    · intro hd
      have h1 : ¬ |trendScore o currF - trendScore o prevF| < 2 := by
        rw [abs_of_pos (by linarith)]
        linarith
      have h2 : (0 : ℚ) < trendScore o currF - trendScore o prevF := by linarith
      rw [hget]
      simp [classifyTrendDiff, h1, h2]
    · intro hd
      have h1 : ¬ |trendScore o currF - trendScore o prevF| < 2 := by
        rw [abs_of_neg (by linarith)]
        linarith
      have h2 : ¬ (0 : ℚ) < trendScore o currF - trendScore o prevF := by linarith
      rw [hget]
      simp [classifyTrendDiff, h1, h2]

/-- Witness for claim C6 (amended): an empty history yields no trend. -/
theorem c6_amended_witness : getTrend ⟨0, 0, 0⟩ [] = none :=
  (c6_amended ⟨0, 0, 0⟩ []).1 (by norm_num)

/-- Claim C7: the stage classifier is a total pure function of the resolved
risk score assigning the band Initial Attachment below 30, Irreversible
Attachment from 30 below 60, Maturation I from 60 below 85, and Maturation
II / Dispersion from 85 on, each with its description, so the bands are
non overlapping and cover every score. -/
theorem c7_stage (risk : ℚ) :
    (risk < 30 → getBiofilmStage risk =
      ⟨"Initial Attachment", "green", "Planktonic cells attaching."⟩) ∧
    (30 ≤ risk → risk < 60 → getBiofilmStage risk =
      ⟨"Irreversible Attachment", "orange", "EPS production starting."⟩) ∧
    (60 ≤ risk → risk < 85 → getBiofilmStage risk =
      ⟨"Maturation I", "orange", "Microcolonies forming."⟩) ∧
    (85 ≤ risk → getBiofilmStage risk =
      ⟨"Maturation II / Dispersion", "red", "Critical mass reached."⟩) := by
  unfold getBiofilmStage
  refine ⟨?_, ?_, ?_, ?_⟩ <;> intros <;> split_ifs <;>
    first
      | rfl
      | linarith

/-- Witness for claim C7: score 40 falls in the Irreversible Attachment
band. -/
theorem c7_stage_witness :
    getBiofilmStage 40 =
      ⟨"Irreversible Attachment", "orange", "EPS production starting."⟩ :=
  (c7_stage 40).2.1 (by norm_num) (by norm_num)

/-- Claim C8: the connectivity monitor reports disconnected exactly when the
explicit status code equals 0 or the age of the reading exceeds 60 seconds,
and connected otherwise; in particular a reading 90 seconds old with status
code 1 is reported disconnected. -/
theorem c8_connectivity :
    (∀ (sc : Option ℤ) (now lastTime : ℤ),
      connectionStatusOf sc now lastTime = .disconnected ↔
        (sc = some 0 ∨ 60000 < now - lastTime)) ∧
    (∀ (sc : Option ℤ) (now lastTime : ℤ),
      connectionStatusOf sc now lastTime = .connected ↔
        ¬(sc = some 0 ∨ 60000 < now - lastTime)) ∧
    connectionStatusOf (some 1) 90000 0 = .disconnected := by
  refine ⟨?_, ?_, ?_⟩
  · intro sc now lastTime
    unfold connectionStatusOf
    split_ifs with h <;> simp [h]
  · intro sc now lastTime
    unfold connectionStatusOf
    split_ifs with h <;> simp [h]
  · norm_num [connectionStatusOf]

/-- Witness for claim C8: an explicit status code 0 reports disconnected. -/
theorem c8_connectivity_witness :
    connectionStatusOf (some 0) 0 0 = .disconnected :=
  (c8_connectivity.1 (some 0) 0 0).mpr (Or.inl rfl)

lemma historyAppend_length_le (w : List Feed) (r : Feed) (h : w.length ≤ 10) :
    (historyAppend w r).length ≤ 10 := by
  unfold historyAppend
  split_ifs with hlt <;> simp <;> omega

lemma historyFoldl_small (rs : List Feed) : ∀ (w : List Feed),
    w.length + rs.length ≤ 10 → List.foldl historyAppend w rs = w ++ rs := by
  induction rs with
  | nil =>
    intro w h
    simp
  | cons r rs ih =>
    intro w h
    simp only [List.foldl_cons]
    have hw : w.length < 10 := by
      simp at h
      omega
    have happ : historyAppend w r = w ++ [r] := by
      simp [historyAppend, hw]
    rw [happ, ih (w ++ [r]) (by simp at h ⊢; omega)]
    simp

/-- Claim C9: the History Window never holds more than 10 readings and FIFO
eviction preserves insertion order: appending keeps the length at most 10,
and after 11 appends into an empty window the first appended reading is gone
and the window holds appends 2 through 11 in order. -/
theorem c9_history :
    (∀ (w : List Feed) (r : Feed), w.length ≤ 10 →
      (historyAppend w r).length ≤ 10) ∧
    (∀ rs : List Feed, rs.length = 11 → historyOfAppends rs = rs.drop 1) := by
  constructor
  · exact historyAppend_length_le
  · intro rs h
    obtain ⟨ys, y, rfl⟩ : ∃ ys y, rs = ys ++ [y] := by
      rcases rs with _ | ⟨a, t⟩
      · simp at h
      · exact ⟨(a :: t).dropLast, (a :: t).getLast (by simp),
          (List.dropLast_append_getLast (by simp)).symm⟩
    have hys : ys.length = 10 := by
      simp at h
      omega
    unfold historyOfAppends
    rw [List.foldl_append]
    have h1 : List.foldl historyAppend [] ys = ys := by
      have := historyFoldl_small ys [] (by simp [hys])
      simpa using this
    rw [h1]
    simp only [List.foldl_cons, List.foldl_nil]
    rcases ys with _ | ⟨a, t⟩
    · simp at hys
    · have hfull : ¬ (a :: t).length < 10 := by
        simp at hys ⊢
        omega
      simp [historyAppend, hfull]
      simp at hys
      omega

/-- Witness for claim C9: 11 appends of a concrete reading leave the window
equal to the last 10 of them. -/
theorem c9_history_witness :
    historyOfAppends (List.replicate 11 ⟨7, 25, 40, 2, 300, none⟩)
      = (List.replicate 11 (⟨7, 25, 40, 2, 300, none⟩ : Feed)).drop 1 :=
  c9_history.2 (List.replicate 11 ⟨7, 25, 40, 2, 300, none⟩) (by simp)

/-- Claim C10: with no numeric external risk, a reading missing any of pH,
temperature, turbidity, flow or TDS resolves to risk exactly 0; and while pH
is unavailable the DSS decision is the placeholder Waiting for data and the
treatment list is empty. -/
theorem c10_missing_data (ph temp turb flow tds : Option ℚ) (risk vol : ℚ)
    (turbD : Option ℚ) :
    ((ph = none ∨ temp = none ∨ turb = none ∨ flow = none ∨ tds = none) →
      riskScore none ph temp turb flow tds = 0) ∧
    dssDecisionOf none risk turbD = "Waiting for data..." ∧
    treatmentsOf none vol risk turbD = [] := by
  refine ⟨?_, rfl, rfl⟩
  intro h
  rcases riskScore_none_cases ph temp turb flow tds with h0 |
    ⟨p, t, tu, f, td, hp, ht, htu, hf2, htd, _⟩
  · exact h0
  · rcases h with h | h | h | h | h <;> simp_all

/-- Witness for claim C10: a reading with pH unavailable resolves to risk 0
with the placeholder decision and no treatments. -/
theorem c10_missing_data_witness :
    riskScore none none (some 25) (some 8) (some 5) (some 600) = 0 ∧
    dssDecisionOf none 50 (some 2) = "Waiting for data..." ∧
    treatmentsOf none 1000 50 (some 2) = [] :=
  ⟨(c10_missing_data none (some 25) (some 8) (some 5) (some 600) 50 1000
      (some 2)).1 (Or.inl rfl),
   (c10_missing_data none (some 25) (some 8) (some 5) (some 600) 50 1000
      (some 2)).2.1,
   (c10_missing_data none (some 25) (some 8) (some 5) (some 600) 50 1000
      (some 2)).2.2⟩

end Biofilm
